import Mathlib

/-!
Verification development for the flight-deal monitor (`monitor.py`).

The core logic is shallowly embedded: JSON values are an inductive type,
`json.loads` is a fuel-based parser over the JSON grammar, Python floats are
rationals, operations that may raise are `Except PyErr`-valued, and the
collaborator calls (OpenAI search, Google-Sheets writes, SMTP) are modelled
as oracles whose observable effects are recorded in a trace.
-/

namespace Monitor

/-- Python exception values, identified by message. -/
inductive PyErr where
  | err : String → PyErr
  deriving DecidableEq, Repr

/-- JSON values as produced by `json.loads`; numbers are rationals. -/
inductive Json where
  | null : Json
  | bool : Bool → Json
  | num : Rat → Json
  | str : String → Json
  | arr : List Json → Json
  | obj : List (String × Json) → Json
  deriving BEq, Repr

/-- Opening brace character (written by code point). -/
def lbrace : Char := Char.ofNat 123

/-- Closing brace character (written by code point). -/
def rbrace : Char := Char.ofNat 125

/-- JSON insignificant whitespace (the four characters accepted by `json.loads`). -/
def isJsonWs (c : Char) : Bool := c = ' ' || c = '\t' || c = '\n' || c = '\r'

/-- Drop leading JSON whitespace. -/
def skipWs : List Char → List Char
  | [] => []
  | c :: cs => if isJsonWs c then skipWs cs else c :: cs

/-- Hex digit value. -/
def hexVal (c : Char) : Option Nat :=
  if '0' ≤ c ∧ c ≤ '9' then some (c.toNat - 48)
  else if 'a' ≤ c ∧ c ≤ 'f' then some (c.toNat - 87)
  else if 'A' ≤ c ∧ c ≤ 'F' then some (c.toNat - 70)
  else none

/-- Decimal digit value. -/
def digitVal (c : Char) : Option Nat :=
  if '0' ≤ c ∧ c ≤ '9' then some (c.toNat - 48) else none

/-- Longest leading run of decimal digits. -/
def takeDigits : List Char → List Nat × List Char
  | [] => ([], [])
  | c :: cs =>
    match digitVal c with
    | some d => let p := takeDigits cs; (d :: p.1, p.2)
    | none => ([], c :: cs)

/-- Read a digit list as a natural number. -/
def natOfDigits (ds : List Nat) : Nat := ds.foldl (fun a d => a * 10 + d) 0

/-- The rational `± (i + f / 10 ^ flen) * 10 ^ e` assembled from a parsed
sign, integer part, fraction digits and exponent, using only `Nat`/`Int`
arithmetic and `mkRat` so that values reduce in the kernel. -/
def ratOfParts (neg : Bool) (i f flen : Nat) (e : Int) : Rat :=
  let a : Nat := i * 10 ^ flen + f
  let n : Nat := if 0 ≤ e then a * 10 ^ e.toNat else a
  let d : Nat := if 0 ≤ e then 10 ^ flen else 10 ^ flen * 10 ^ (-e).toNat
  mkRat (if neg then -(n : Int) else (n : Int)) d

/-- Prepend a character to the string of a partial parse result. -/
def consMap (c : Char) : Option (String × List Char) → Option (String × List Char) :=
  Option.map (fun p => (String.mk (c :: p.1.data), p.2))

/-- Parse the body of a JSON string literal (opening quote already consumed),
returning the decoded string and the remaining input. Control characters are
rejected, escapes are decoded, as in `json.loads`. -/
def parseJString : List Char → Option (String × List Char)
  | [] => none
  | '"' :: cs => some ("", cs)
  | '\\' :: '"' :: cs => consMap '"' (parseJString cs)
  | '\\' :: '\\' :: cs => consMap '\\' (parseJString cs)
  | '\\' :: '/' :: cs => consMap '/' (parseJString cs)
  | '\\' :: 'b' :: cs => consMap (Char.ofNat 8) (parseJString cs)
  | '\\' :: 'f' :: cs => consMap (Char.ofNat 12) (parseJString cs)
  | '\\' :: 'n' :: cs => consMap '\n' (parseJString cs)
  | '\\' :: 'r' :: cs => consMap '\r' (parseJString cs)
  | '\\' :: 't' :: cs => consMap '\t' (parseJString cs)
  | '\\' :: 'u' :: h1 :: h2 :: h3 :: h4 :: cs =>
    match hexVal h1, hexVal h2, hexVal h3, hexVal h4 with
    | some a, some b, some c, some d =>
      consMap (Char.ofNat (((a * 16 + b) * 16 + c) * 16 + d)) (parseJString cs)
    | _, _, _, _ => none
  | '\\' :: _ => none
  | c :: cs => if c.toNat < 32 then none else consMap c (parseJString cs)

/-- Parse a JSON number per the strict JSON grammar:
`-?(0|[1-9][0-9]*)(.[0-9]+)?([eE][+-]?[0-9]+)?`. -/
def parseJNumber (cs : List Char) : Option (Rat × List Char) :=
  let (neg, cs1) : Bool × List Char :=
    match cs with
    | '-' :: r => (true, r)
    | _ => (false, cs)
  let (ds, cs2) := takeDigits cs1
  if ds = [] then none
  else if 1 < ds.length ∧ ds.headI = 0 then none
  else
    let (fs, cs3) : List Nat × List Char :=
      match cs2 with
      | '.' :: r => takeDigits r
      | _ => ([], cs2)
    let fracPresent : Bool := match cs2 with | '.' :: _ => true | _ => false
    if fracPresent ∧ fs = [] then none
    else
      let afterFrac := if fracPresent then cs3 else cs2
      let expParse : Option (Int × List Char) :=
        match afterFrac with
        | 'e' :: r | 'E' :: r =>
          let (esign, r1) : Bool × List Char :=
            match r with
            | '+' :: r2 => (false, r2)
            | '-' :: r2 => (true, r2)
            | _ => (false, r)
          let (es, r2) := takeDigits r1
          if es = [] then none
          else some ((if esign then -(natOfDigits es : Int) else (natOfDigits es : Int)), r2)
        | _ => some (0, afterFrac)
      match expParse with
      | none => none
      | some (e, rest) =>
        some (ratOfParts neg (natOfDigits ds) (natOfDigits fs) fs.length e, rest)

mutual

/-- Parse one JSON value at the head of the input (no leading whitespace),
fuel-bounded. Mirrors the grammar accepted by `json.loads`. -/
def parseVal : Nat → List Char → Option (Json × List Char)
  | 0, _ => none
  | fuel + 1, cs =>
    match cs with
    | 'n' :: 'u' :: 'l' :: 'l' :: r => some (.null, r)
    | 't' :: 'r' :: 'u' :: 'e' :: r => some (.bool true, r)
    | 'f' :: 'a' :: 'l' :: 's' :: 'e' :: r => some (.bool false, r)
    | '"' :: r => (parseJString r).map (fun p => (.str p.1, p.2))
    | c :: r =>
      if c = lbrace then
        match skipWs r with
        | c2 :: r2 =>
          if c2 = rbrace then some (.obj [], r2)
          else parseMembers fuel (c2 :: r2) []
        | [] => none
      else if c = '[' then
        match skipWs r with
        | ']' :: r2 => some (.arr [], r2)
        | r1 => parseItems fuel r1 []
      else (parseJNumber (c :: r)).map (fun p => (.num p.1, p.2))
    | [] => none

/-- Parse the members of a JSON object after its opening brace, accumulating
key/value pairs until the closing brace. -/
def parseMembers : Nat → List Char → List (String × Json) → Option (Json × List Char)
  | 0, _, _ => none
  | fuel + 1, cs, acc =>
    match cs with
    | '"' :: r =>
      match parseJString r with
      | none => none
      | some (k, r1) =>
        match skipWs r1 with
        | ':' :: r2 =>
          match parseVal fuel (skipWs r2) with
          | none => none
          | some (v, r3) =>
            match skipWs r3 with
            | ',' :: r4 =>
              match skipWs r4 with
              | '"' :: r5 => parseMembers fuel ('"' :: r5) ((k, v) :: acc)
              | _ => none
            | c :: r4 =>
              if c = rbrace then some (.obj ((k, v) :: acc).reverse, r4) else none
            | [] => none
        | _ => none
    | _ => none

/-- Parse the items of a JSON array after its opening bracket, accumulating
elements until the closing bracket. -/
def parseItems : Nat → List Char → List Json → Option (Json × List Char)
  | 0, _, _ => none
  | fuel + 1, cs, acc =>
    match parseVal fuel cs with
    | none => none
    | some (v, r) =>
      match skipWs r with
      | ',' :: r1 => parseItems fuel (skipWs r1) (v :: acc)
      | ']' :: r1 => some (.arr (v :: acc).reverse, r1)
      | _ => none

end

/-- Model of Python `json.loads`: parse exactly one JSON value surrounded by
optional whitespace; anything else fails. -/
def json_loads (s : String) : Option Json :=
  match parseVal (2 * s.length + 8) (skipWs s.data) with
  | some (v, rest) => if skipWs rest = [] then some v else none
  | none => none

/-- Last-binding-wins lookup, modelling Python `dict` built from possibly
duplicated JSON keys (later keys overwrite earlier ones). -/
def jlookup (kvs : List (String × Json)) (k : String) : Option Json :=
  kvs.foldl (fun acc p => if p.1 = k then some p.2 else acc) none

/-- `d.get(k, default)` on a Json value: succeeds only on objects, raising
`AttributeError` otherwise. -/
def pyDictGet (v : Json) (k : String) (dflt : Json) : Except PyErr Json :=
  match v with
  | .obj kvs => .ok ((jlookup kvs k).getD dflt)
  | _ => .error (.err "AttributeError")

/-- `len(v)`: defined for strings, lists and dicts; `TypeError` otherwise. -/
def pyLen (v : Json) : Except PyErr Nat :=
  match v with
  | .str s => .ok s.length
  | .arr l => .ok l.length
  | .obj l => .ok l.length
  | _ => .error (.err "TypeError")

/-- Python truthiness of a Json value, for `if not deals`. -/
def pyFalsy (v : Json) : Bool :=
  match v with
  | .null => true
  | .bool b => !b
  | .num q => q = 0
  | .str s => s = ""
  | .arr l => l.isEmpty
  | .obj l => l.isEmpty

/-- Whitespace stripped by Python float parsing. -/
def isPyWs (c : Char) : Bool :=
  c = ' ' || c = '\t' || c = '\n' || c = '\r' || c = Char.ofNat 11 || c = Char.ofNat 12

/-- Drop leading Python whitespace. -/
def skipPyWs : List Char → List Char
  | [] => []
  | c :: cs => if isPyWs c then skipPyWs cs else c :: cs

/-- Model of Python `float(s)` on a string: optional surrounding whitespace,
optional sign, digits with optional fraction and exponent. (The special forms
`inf`/`nan` and digit-group underscores are outside the model; no input in
this development uses them.) -/
def pyFloatOfString (s : String) : Option Rat :=
  let cs := (skipPyWs (skipPyWs s.data).reverse).reverse
  let (neg, c1) : Bool × List Char :=
    match cs with
    | '-' :: r => (true, r)
    | '+' :: r => (false, r)
    | _ => (false, cs)
  let (ds, c2) := takeDigits c1
  let (fracPresent, fs, c3) : Bool × List Nat × List Char :=
    match c2 with
    | '.' :: r => let p := takeDigits r; (true, p.1, p.2)
    | _ => (false, [], c2)
  if ds = [] ∧ fs = [] then none
  else
    let afterFrac := if fracPresent then c3 else c2
    let expParse : Option (Int × List Char) :=
      match afterFrac with
      | 'e' :: r | 'E' :: r =>
        let (esign, r1) : Bool × List Char :=
          match r with
          | '+' :: r2 => (false, r2)
          | '-' :: r2 => (true, r2)
          | _ => (false, r)
        let (es, r2) := takeDigits r1
        if es = [] then none
        else some ((if esign then -(natOfDigits es : Int) else (natOfDigits es : Int)), r2)
      | _ => some (0, afterFrac)
    match expParse with
    | none => none
    | some (e, rest) =>
      if rest = [] then
        some (ratOfParts neg (natOfDigits ds) (natOfDigits fs) fs.length e)
      else none

/-- Model of Python `float(v)` on a Json value: numbers pass through, strings
are parsed, booleans coerce to 0/1, everything else raises (`none`). -/
def pyFloat (v : Json) : Option Rat :=
  match v with
  | .num q => some q
  | .str s => pyFloatOfString s
  | .bool b => some (if b then 1 else 0)
  | _ => none

/-- Suffix of the input starting at its first opening brace
(`raw_text.find(lbrace)` in `safe_extract_deals_json`). -/
def findBrace : List Char → Option (List Char)
  | [] => none
  | c :: cs => if c = lbrace then some (c :: cs) else findBrace cs

/-- The brace-depth scan of `safe_extract_deals_json`: walk the characters,
incrementing depth on an opening and decrementing on a closing brace; return
the span up to the first point where depth returns to zero, or `none` if it
never does. -/
def scanSpan (depth : Int) : List Char → Option (List Char)
  | [] => none
  | c :: cs =>
    if c = lbrace then (scanSpan (depth + 1) cs).map (fun r => c :: r)
    else if c = rbrace then
      if depth - 1 = 0 then some [c]
      else (scanSpan (depth - 1) cs).map (fun r => c :: r)
    else (scanSpan depth cs).map (fun r => c :: r)

/-- The character-level body of `safe_extract_deals_json`. -/
def safe_extract_core (l : List Char) : List Char :=
  match findBrace l with
  | none => []
  | some suffix =>
    match scanSpan 0 suffix with
    | none => []
    | some span => span

/-- `safe_extract_deals_json`: the first balanced top-level brace span of the
text, or `""` when no opening brace exists or the span never closes. -/
def safe_extract_deals_json (raw : String) : String :=
  String.mk (safe_extract_core raw.data)

/-- Python regex `\s` (ASCII subset used here). -/
def isReWs (c : Char) : Bool :=
  c = ' ' || c = '\t' || c = '\n' || c = '\r' || c = Char.ofNat 11 || c = Char.ofNat 12

/-- Drop leading regex whitespace (`\s*`). -/
def skipReWs : List Char → List Char
  | [] => []
  | c :: cs => if isReWs c then skipReWs cs else c :: cs

/-- Characters up to and including the first closing brace
(the lazy `.*?` followed by a closing brace, under DOTALL). -/
def takeThroughRbrace : List Char → Option (List Char)
  | [] => none
  | c :: cs =>
    if c = rbrace then some [c]
    else (takeThroughRbrace cs).map (fun r => c :: r)

/-- Expect a literal character sequence; return the rest of the input. -/
def matchLit : List Char → List Char → Option (List Char)
  | [], cs => some cs
  | _, [] => none
  | p :: ps, c :: cs => if c = p then matchLit ps cs else none

/-- Attempt the pattern of `fallback_single_deal` at this position:
the literal quoted key `deals`, optional whitespace, a colon, optional
whitespace, an opening bracket, optional whitespace, then a group capturing
an opening brace lazily through the first closing brace. Returns the group. -/
def matchDealsAt (cs : List Char) : Option (List Char) :=
  match matchLit ("\"deals\"".data) cs with
  | none => none
  | some r1 =>
    match skipReWs r1 with
    | ':' :: r2 =>
      match skipReWs r2 with
      | '[' :: r3 =>
        match skipReWs r3 with
        | c :: r4 =>
          if c = lbrace then (takeThroughRbrace r4).map (fun g => c :: g)
          else none
        | [] => none
      | _ => none
    | _ => none

/-- `re.search`: try the pattern at each position left to right, returning the
first (leftmost) match's capture group. -/
def searchDeals : List Char → Option (List Char)
  | [] => none
  | c :: cs =>
    match matchDealsAt (c :: cs) with
    | some g => some g
    | none => searchDeals cs

/-- `fallback_single_deal`: regex-search the raw text for the first deal-shaped
fragment after a `deals` key and parse just that fragment; empty list when the
search or the parse fails. -/
def fallback_single_deal (raw : String) : List Json :=
  match searchDeals raw.data with
  | none => []
  | some frag =>
    match json_loads (String.mk frag) with
    | some d => [d]
    | none => []

/-- The `try` block of `extract_deals_from_gpt`: `json.loads` the balanced
span, take its `deals` field (default the empty list), and evaluate the `len`
of the success log line, which can itself raise and sits inside the guard.
The result is `Except`-valued to record which operations may raise. -/
def extract_attempt (raw : String) : Except PyErr Json :=
  match json_loads (safe_extract_deals_json raw) with
  | none => .error (PyErr.err "JSONDecodeError")
  | some data =>
    match pyDictGet data "deals" (Json.arr []) with
    | .error e => .error e
    | .ok deals =>
      match pyLen deals with
      | .error e => .error e
      | .ok _ => .ok deals

/-- `extract_deals_from_gpt`, continued: the guarded block above runs only
when a balanced span was found; on its success the deals value is returned,
on any failure (the bare `except`) control falls to `fallback_single_deal`. -/
def extract_deals_from_gpt (raw : String) : Except PyErr Json :=
  if safe_extract_deals_json raw ≠ "" then
    match extract_attempt raw with
    | .ok deals => .ok deals
    | .error _ => .ok (.arr (fallback_single_deal raw))
  else .ok (.arr (fallback_single_deal raw))

/-- The sort key `price_val` of `handle_row`: `float(d.get(key, 999999))`
under a bare `except` returning `999999.0` — missing keys, unparseable values
and non-dict entries all coerce to the sentinel. -/
def price_val (d : Json) : Rat :=
  match d with
  | .obj kvs =>
    match jlookup kvs "price_per_person_usd" with
    | some v =>
      match pyFloat v with
      | some q => q
      | none => 999999
    | none => 999999
  | _ => 999999

/-- The numeric-coercion attempt on an entry's price field: `none` exactly
when the field is missing, unparseable, or the entry is not an object — the
"malformed price" cases. -/
def priceCoerce (d : Json) : Option Rat :=
  match d with
  | .obj kvs =>
    match jlookup kvs "price_per_person_usd" with
    | some v => pyFloat v
    | none => none
  | _ => none

/-- Ordering by coerced per-person price. -/
def priceLE (a b : Json) : Prop := price_val a ≤ price_val b

instance : DecidableRel priceLE :=
  fun a b => inferInstanceAs (Decidable (price_val a ≤ price_val b))

instance : IsTotal Json priceLE := ⟨fun a b => le_total (price_val a) (price_val b)⟩

instance : IsTrans Json priceLE := ⟨fun _ _ _ h1 h2 => le_trans h1 h2⟩

/-- `deals.sort(key=price_val)`: Python's stable ascending sort by key,
modelled by the stable `insertionSort` on the same key order. -/
def sort_deals (l : List Json) : List Json := l.insertionSort priceLE

/-- `deals.sort(...)` as an operation on the extracted value: raises
`AttributeError` unless the value is a list. -/
def pySortDeals (v : Json) : Except PyErr (List Json) :=
  match v with
  | .arr l => .ok (sort_deals l)
  | _ => .error (.err "AttributeError")

/-- One monitor row as read from the Monitors sheet (the `row_map` built by
`read_monitors`): the fields `handle_row` reads, plus the existing
last-known-best columns and the Active flag. -/
structure Row where
  row_num : Nat
  OriginAirports : String := ""
  Destination : String := ""
  Seats : String := "1"
  DepartStart : String := ""
  DepartEnd : String := ""
  ReturnStart : String := ""
  ReturnEnd : String := ""
  MaxPricePerPersonUSD : String := ""
  Notes : String := ""
  Active : String := ""
  LastBestPricePerPerson : String := ""
  LastBestSource : String := ""
  deriving Repr

/-- One `update_monitor_row` call: the values written to the row's
last-known-best columns. The price column receives either the literal empty
string (recorded as `none`) or `str(best_price)` (recorded as the float's
value); the source column receives whatever value was passed; the timestamp
column receives the fresh `now_utc_iso()` timestamp, modelled by the run's
clock value. -/
structure WriteRec where
  row_num : Nat
  price : Option Rat
  source : Json
  ts : Nat
  deriving Repr

/-- Observable effects performed by one `handle_row` call, in order. -/
structure Trace where
  writes : List WriteRec := []
  emails : List Json := []
  alerts : List Json := []
  deriving Repr

/-- The empty trace. -/
def Trace.nil : Trace := {}

/-- Collaborator oracles for one `handle_row` call: the outcome of the OpenAI
search (given the prompt), of the Monitors write-back, of the SMTP send and of
the Alerts_Log append. An `Except.error` models the call raising. -/
structure Effects where
  search : String → Except PyErr String
  storeWrite : Except PyErr Unit := .ok ()
  email : Except PyErr Unit := .ok ()
  alertAppend : Except PyErr Unit := .ok ()

/-- The effective price ceiling computed at the top of `handle_row`:
`float(max_pp_raw) if max_pp_raw else 9999.0` under a bare `except`
defaulting to `9999.0`. -/
def effective_ceiling (max_pp_raw : String) : Rat :=
  if max_pp_raw = "" then 9999
  else
    match pyFloatOfString max_pp_raw with
    | some v => v
    | none => 9999

/-- The user prompt built by `handle_row` from the row's fields (with the
`or "anywhere"` default on the destination). -/
def buildPrompt (row : Row) : String :=
  let dest := if row.Destination = "" then "anywhere" else row.Destination
  "Find round-trip economy flights for " ++ row.Seats ++ " travelers " ++
  "from these origin airports: " ++ row.OriginAirports ++ ". " ++
  "Destination: " ++ dest ++ ". " ++
  "Depart between " ++ row.DepartStart ++ " and " ++ row.DepartEnd ++ ". " ++
  "Return between " ++ row.ReturnStart ++ " and " ++ row.ReturnEnd ++ ". " ++
  "All prices in USD. " ++
  "Only include deals with at least " ++ row.Seats ++ " seats if possible. " ++
  "Remember: every deal needs source_site and query_hint."

/-- `handle_row`: process one monitor row. Returns the effects performed, and
either the status string handed back to `monitor_once` or the exception that
escaped. Only the OpenAI call sits inside a `try`; a failure of any
Sheets/SMTP call propagates. `ts` is the run's clock, stamped on writes. -/
def handle_row (eff : Effects) (ts : Nat) (row : Row) : Trace × Except PyErr String :=
  let max_pp_val := effective_ceiling row.MaxPricePerPersonUSD
  match eff.search (buildPrompt row) with
  | .error _ =>
    -- except branch: update_monitor_row(.., "", "gpt_call_failed"); return "gpt_error"
    match eff.storeWrite with
    | .error e => (Trace.nil, .error e)
    | .ok _ =>
      ({ writes := [⟨row.row_num, none, .str "gpt_call_failed", ts⟩] }, .ok "gpt_error")
  | .ok raw =>
    match extract_deals_from_gpt raw with
    | .error e => (Trace.nil, .error e)
    | .ok dealsJ =>
      if pyFalsy dealsJ then
        match eff.storeWrite with
        | .error e => (Trace.nil, .error e)
        | .ok _ =>
          ({ writes := [⟨row.row_num, none, .str "no_deals_found", ts⟩] }, .ok "no_deals_found")
      else
        match pySortDeals dealsJ with
        | .error e => (Trace.nil, .error e)
        | .ok sorted =>
          match sorted.head? with
          | none => (Trace.nil, .error (.err "IndexError"))
          | some best =>
            let best_price := price_val best
            match pyDictGet best "source_site" (.str "") with
            | .error e => (Trace.nil, .error e)
            | .ok best_source =>
              match eff.storeWrite with
              | .error e => (Trace.nil, .error e)
              | .ok _ =>
                let tr1 : Trace :=
                  { writes := [⟨row.row_num, some best_price, best_source, ts⟩] }
                if best_price ≤ max_pp_val then
                  match eff.email with
                  | .error e => (tr1, .error e)
                  | .ok _ =>
                    let tr2 : Trace := { tr1 with emails := [best] }
                    match eff.alertAppend with
                    | .error e => (tr2, .error e)
                    | .ok _ => ({ tr2 with alerts := [best] }, .ok "alert_sent")
                else (tr1, .ok "checked_no_alert")

/-- Python `str.strip()` (whitespace variant). -/
def pyStrip (s : String) : String :=
  String.mk (skipPyWs (skipPyWs s.data).reverse).reverse

/-- Python `str.upper()` (ASCII range, sufficient for the flag values). -/
def pyUpper (s : String) : String := String.mk (s.data.map Char.toUpper)

/-- The active-row filter of `read_monitors`: `Active.strip().upper() == "YES"`. -/
def read_monitors_filter (rows : List Row) : List Row :=
  rows.filter (fun r => pyUpper (pyStrip r.Active) = "YES")

/-- One heartbeat row appended to Run_Log by `append_run_log`. -/
structure Heartbeat where
  status : String
  count : Nat
  notes : String
  ts : Nat
  deriving Repr

/-- The per-row loop of `monitor_once`: run `handle_row` on each row in order,
collecting the statuses; the first escaping exception aborts the loop. -/
def runRows (eff : Row → Effects) (ts : Nat) : List Row → Except PyErr (List String)
  | [] => .ok []
  | r :: rs =>
    match handle_row (eff r) ts r with
    | (_, .ok s) => (runRows eff ts rs).map (fun ss => s :: ss)
    | (_, .error e) => .error e

/-- `monitor_once`: filter the active rows; with none, append the
`no_active_monitors` / `nothing_to_scan` heartbeat; otherwise process every
row and append the `completed` heartbeat whose count is the number of active
rows and whose notes join the statuses with `"; "`. Returns the Run_Log
appends performed and the run's own outcome. -/
def monitor_once (eff : Row → Effects) (ts : Nat) (allRows : List Row) :
    List Heartbeat × Except PyErr Unit :=
  let monitors := read_monitors_filter allRows
  if monitors.isEmpty then
    ([⟨"no_active_monitors", 0, "nothing_to_scan", ts⟩], .ok ())
  else
    match runRows eff ts monitors with
    | .ok statuses =>
      ([⟨"completed", monitors.length, String.intercalate "; " statuses, ts⟩], .ok ())
    | .error e => ([], .error e)

/-! ### Concrete scenario inputs used by the theorems below -/

/-- A raw text whose first top-level object is truncated: the brace depth
never returns to zero, yet the fallback stage can still recover a deal. -/
def cRaw5 : String := "\x7b\"deals\": [\x7b\"price_per_person_usd\": 50\x7d"

/-- The single deal the fallback recovers from `cRaw5`. -/
def cDeal5 : Json := .obj [("price_per_person_usd", .num 50)]

/-- A first balanced top-level object that fails to parse as JSON. -/
def cRawFirst : String := "\x7boops\x7d"

/-- The same first object followed by a second balanced object that carries a
parseable deals array. -/
def cRawA : String := cRawFirst ++ " \x7b\"deals\": [\x7b\"price_per_person_usd\": 5\x7d]\x7d"

/-- The deal recovered from the trailing content of `cRawA`. -/
def cDeal9 : Json := .obj [("price_per_person_usd", .num 5)]

/-- An offer whose price field fails numeric coercion. -/
def cBadDeal : Json := .obj [("price_per_person_usd", .str "abc")]

/-- A well-formed offer priced above the sentinel. -/
def cBigDeal : Json := .obj [("price_per_person_usd", .num 1000000)]

/-- A well-formed offer priced below the sentinel. -/
def cGoodDeal : Json := .obj [("price_per_person_usd", .num 50)]

/-- Collaborators whose search call raises. -/
def cEffFail : Effects := { search := fun _ => .error (.err "boom") }

/-- A row with existing last-known-best values. -/
def cRow1 : Row :=
  { row_num := 2, Active := "YES", LastBestPricePerPerson := "100", LastBestSource := "Kayak" }

/-- A raw response whose single deal has an unparseable price. -/
def cRawMal : String := "\x7b\"deals\": [\x7b\"price_per_person_usd\": \"abc\"\x7d]\x7d"

/-- Collaborators whose search succeeds with the malformed-price response. -/
def cEffMal : Effects := { search := fun _ => .ok cRawMal }

/-- A row whose own ceiling parses to `1000000`, above the sentinel. -/
def cRowHighCeil : Row := { row_num := 2, Active := "YES", MaxPricePerPersonUSD := "1000000" }

/-- Collaborators whose search and store write both fail. -/
def cEffStoreFail : Effects :=
  { search := fun _ => .error (.err "boom"), storeWrite := .error (.err "sheets_down") }

/-- Two active monitor rows. -/
def cRows2 : List Row := [cRow1, { cRow1 with row_num := 3 }]

/-! ### Helper lemmas -/

/-- A malformed price coerces to the sentinel. -/
theorem price_val_of_priceCoerce_none {d : Json} (h : priceCoerce d = none) :
    price_val d = 999999 := by
  cases d <;> simp [priceCoerce, price_val] at h ⊢
  rename_i kvs
  cases hl : jlookup kvs "price_per_person_usd" with
  | none => rfl
  | some v => rw [hl] at h; simp at h; simp [h]

/-- A below-sentinel price value means the coercion succeeded. -/
theorem priceCoerce_isSome_of_lt {d : Json} (h : price_val d < 999999) :
    priceCoerce d ≠ none := by
  intro hc
  rw [price_val_of_priceCoerce_none hc] at h
  exact lt_irrefl _ h

/-- `findBrace` over an appended list: the first opening brace of the first
part wins, carrying the second part along. -/
theorem findBrace_append (l1 l2 : List Char) :
    findBrace (l1 ++ l2) =
      (match findBrace l1 with
       | some s => some (s ++ l2)
       | none => findBrace l2) := by
  induction l1 with
  | nil => simp [findBrace]
  | cons c cs ih =>
    by_cases h : c = lbrace <;> simp [findBrace, h, ih]

/-- A balanced span found by `scanSpan` is unaffected by appending text. -/
theorem scanSpan_append {l : List Char} (t : List Char) :
    ∀ {d : Int} {span : List Char}, scanSpan d l = some span →
      scanSpan d (l ++ t) = some span := by
  induction l with
  | nil => intro d span h; simp [scanSpan] at h
  | cons c cs ih =>
    intro d span h
    by_cases hb : c = lbrace
    · rw [scanSpan, if_pos hb] at h
      obtain ⟨r, hr, hspan⟩ := Option.map_eq_some'.mp h
      rw [List.cons_append, scanSpan, if_pos hb, ih hr]
      simp [hspan]
    · by_cases hc : c = rbrace
      · rw [scanSpan, if_neg hb, if_pos hc] at h
        by_cases hd : d - 1 = 0
        · rw [if_pos hd] at h
          rw [List.cons_append, scanSpan, if_neg hb, if_pos hc, if_pos hd]
          exact h
        · rw [if_neg hd] at h
          obtain ⟨r, hr, hspan⟩ := Option.map_eq_some'.mp h
          rw [List.cons_append, scanSpan, if_neg hb, if_pos hc, if_neg hd, ih hr]
          simp [hspan]
      · rw [scanSpan, if_neg hb, if_neg hc] at h
        obtain ⟨r, hr, hspan⟩ := Option.map_eq_some'.mp h
        rw [List.cons_append, scanSpan, if_neg hb, if_neg hc, ih hr]
        simp [hspan]

/-- The character-level span is unaffected by appended text when it closed. -/
theorem safe_extract_core_append {l : List Char} (t : List Char)
    (h : safe_extract_core l ≠ []) :
    safe_extract_core (l ++ t) = safe_extract_core l := by
  unfold safe_extract_core at h ⊢
  rw [findBrace_append]
  cases hf : findBrace l with
  | none => simp [hf] at h
  | some suffix =>
    simp only [hf] at h ⊢
    cases hs : scanSpan 0 suffix with
    | none => simp [hs] at h
    | some span => simp [hs, scanSpan_append t hs]

/-- When the text has a balanced first object, appending trailing text does
not change the extracted span. -/
theorem safe_extract_append {raw : String} (t : String)
    (h : safe_extract_deals_json raw ≠ "") :
    safe_extract_deals_json (raw ++ t) = safe_extract_deals_json raw := by
  unfold safe_extract_deals_json at h ⊢
  rw [String.data_append]
  have hc : safe_extract_core raw.data ≠ [] := by
    intro he
    rw [he] at h
    exact h rfl
  rw [safe_extract_core_append _ hc]

/-- If every active row's processing returns a status, the row loop returns
the full status list. -/
theorem runRows_ok (eff : Row → Effects) (ts : Nat) :
    ∀ l : List Row, (∀ r ∈ l, (handle_row (eff r) ts r).2.isOk = true) →
      ∃ ss : List String, runRows eff ts l = .ok ss ∧ ss.length = l.length := by
  intro l
  induction l with
  | nil => intro _; exact ⟨[], rfl, rfl⟩
  | cons r rs ih =>
    intro h
    have hr := h r (List.mem_cons_self r rs)
    obtain ⟨ss, hss, hlen⟩ := ih (fun x hx => h x (List.mem_cons_of_mem r hx))
    unfold runRows
    cases hh : handle_row (eff r) ts r with
    | mk tr res =>
      cases res with
      | error e => rw [hh] at hr; simp [Except.isOk, Except.toBool] at hr
      | ok s => exact ⟨s :: ss, by rw [hss]; rfl, by simp [hlen]⟩

/-! ### C10 — default price ceiling -/

/-- C10: for every monitor row whose `MaxPricePerPersonUSD` field is the empty
string or fails numeric parsing, the effective ceiling used by `handle_row` is
exactly the hardcoded constant `9999`. -/
theorem C10_default_ceiling (s : String) (h : s = "" ∨ pyFloatOfString s = none) :
    effective_ceiling s = 9999 := by
  unfold effective_ceiling
  rcases h with h | h
  · rw [if_pos h]
  · by_cases he : s = ""
    · rw [if_pos he]
    · rw [if_neg he, h]

/-- Witness for C10 at the unparseable input `"abc"`. -/
theorem C10_default_ceiling_witness :
    pyFloatOfString "abc" = none ∧ effective_ceiling "abc" = 9999 :=
  ⟨by decide, C10_default_ceiling "abc" (Or.inr (by decide))⟩

/-! ### C7 — the extractor never raises -/

/-- C7: for every input string, `extract_deals_from_gpt` returns normally —
no exception value escapes; every failure state inside the guarded block is
absorbed into the fallback. -/
theorem C7_extractor_total (raw : String) :
    ∃ v, extract_deals_from_gpt raw = .ok v := by
  unfold extract_deals_from_gpt
  by_cases h : safe_extract_deals_json raw ≠ ""
  · rw [if_pos h]
    rcases hm : extract_attempt raw with v | v <;> simp [hm]
  · rw [if_neg h]
    exact ⟨_, rfl⟩

/-! ### C5 — truncated first object -/

/-- C5 counterexample: `cRaw5` is truncated — it contains an opening brace
and the depth scan never closes — yet the Extractor returns one recovered
offer, not the empty sequence. -/
theorem C5_counterexample :
    (findBrace cRaw5.data).isSome = true ∧
    scanSpan 0 ((findBrace cRaw5.data).getD []) = none ∧
    extract_deals_from_gpt cRaw5 = .ok (.arr [cDeal5]) ∧
    Json.arr [cDeal5] ≠ .arr [] := by
  refine ⟨rfl, rfl, rfl, by simp [cDeal5]⟩

/-- C5 amended: for every input whose balanced-object stage yields nothing
(in particular every truncated first object), the Extractor returns exactly
the fallback stage's result; when the fallback's regex also finds nothing,
that result is the empty sequence. -/
theorem C5_amended (raw : String) (h : safe_extract_deals_json raw = "") :
    extract_deals_from_gpt raw = .ok (.arr (fallback_single_deal raw)) ∧
    (searchDeals raw.data = none → extract_deals_from_gpt raw = .ok (.arr [])) := by
  have h1 : extract_deals_from_gpt raw = .ok (.arr (fallback_single_deal raw)) := by
    unfold extract_deals_from_gpt
    rw [if_neg (by simp [h])]
  refine ⟨h1, fun hs => ?_⟩
  rw [h1]
  unfold fallback_single_deal
  rw [hs]

/-- Witness for C5 amended at a truncated input with no deals marker. -/
theorem C5_amended_witness :
    safe_extract_deals_json "x\x7by" = "" ∧
    extract_deals_from_gpt "x\x7by" = .ok (.arr []) :=
  ⟨rfl, (C5_amended "x\x7by" rfl).2 rfl⟩

/-! ### C9 — content after the first balanced object -/

/-- C9 counterexample: `cRawA` and `cRawFirst` share the same first balanced
top-level object, yet the extractor returns one offer for `cRawA` and none
for `cRawFirst`: content after the first balanced object's closing brace
influenced the result (via the fallback scanning the entire text). -/
theorem C9_counterexample :
    safe_extract_deals_json cRawA = cRawFirst ∧
    safe_extract_deals_json cRawFirst = cRawFirst ∧
    extract_deals_from_gpt cRawA = .ok (.arr [cDeal9]) ∧
    extract_deals_from_gpt cRawFirst = .ok (.arr []) ∧
    Json.arr [cDeal9] ≠ .arr [] := by
  refine ⟨rfl, rfl, rfl, rfl, by simp [cDeal9]⟩

/-- C9 amended: when the first balanced top-level object parses as a JSON
object and its `deals` field (defaulting to the empty list) is a sized value,
only that first object is considered — no trailing content influences the
result. When that stage fails, the fallback scans the entire text, trailing
content included. -/
theorem C9_amended (raw t : String) (kvs : List (String × Json)) (n : Nat)
    (h0 : safe_extract_deals_json raw ≠ "")
    (h1 : json_loads (safe_extract_deals_json raw) = some (.obj kvs))
    (h3 : pyLen ((jlookup kvs "deals").getD (.arr [])) = .ok n) :
    extract_deals_from_gpt (raw ++ t) = extract_deals_from_gpt raw ∧
    extract_deals_from_gpt raw = .ok ((jlookup kvs "deals").getD (.arr [])) := by
  have hse := safe_extract_append t h0
  have hatt : ∀ s : String, safe_extract_deals_json s = safe_extract_deals_json raw →
      extract_attempt s = .ok ((jlookup kvs "deals").getD (.arr [])) := by
    intro s hs
    unfold extract_attempt
    rw [hs, h1]
    simp [pyDictGet, h3]
  have hmain : ∀ s : String, safe_extract_deals_json s = safe_extract_deals_json raw →
      extract_deals_from_gpt s = .ok ((jlookup kvs "deals").getD (.arr [])) := by
    intro s hs
    unfold extract_deals_from_gpt
    rw [hs, if_pos h0, hatt s hs]
  have hA := hmain raw rfl
  have hB := hmain (raw ++ t) hse
  exact ⟨by rw [hA, hB], hA⟩

/-- Witness for C9 amended: a parseable first object followed by junk. -/
theorem C9_amended_witness :
    safe_extract_deals_json "\x7b\"deals\": [\x7b\"price_per_person_usd\": 7\x7d]\x7d" ≠ "" ∧
    extract_deals_from_gpt ("\x7b\"deals\": [\x7b\"price_per_person_usd\": 7\x7d]\x7d" ++ " trail \x7b junk") =
      extract_deals_from_gpt "\x7b\"deals\": [\x7b\"price_per_person_usd\": 7\x7d]\x7d" := by
  refine ⟨by decide, ?_⟩
  exact (C9_amended "\x7b\"deals\": [\x7b\"price_per_person_usd\": 7\x7d]\x7d" " trail \x7b junk"
    [("deals", .arr [.obj [("price_per_person_usd", .num 7)]])] 1
    (by decide) rfl rfl).1

/-! ### C4 — ranker order and malformed prices -/

/-- C4 counterexample: with one malformed offer and one well-formed offer
priced `1000000`, the malformed offer (coerced to the sentinel `999999`)
ranks first although not every offer is malformed. -/
theorem C4_counterexample :
    (sort_deals [cBadDeal, cBigDeal]).head? = some cBadDeal ∧
    priceCoerce cBadDeal = none ∧
    priceCoerce cBigDeal = some 1000000 := by
  refine ⟨rfl, rfl, by decide⟩

/-- C4 amended: for every non-empty offer sequence, the first offer after
sorting has coerced price less than or equal to every offer's coerced price;
and a malformed-price offer never ranks first provided some offer's coerced
price is strictly below the sentinel `999999` (rather than merely being
well-formed). -/
theorem C4_amended (l : List Json) (h : l ≠ []) :
    ∃ best, (sort_deals l).head? = some best ∧ best ∈ l ∧
      (∀ d ∈ l, price_val best ≤ price_val d) ∧
      ((∃ d ∈ l, price_val d < 999999) → priceCoerce best ≠ none) := by
  have hperm : List.Perm (List.insertionSort priceLE l) l := List.perm_insertionSort priceLE l
  have hsorted : List.Sorted priceLE (List.insertionSort priceLE l) :=
    List.sorted_insertionSort priceLE l
  cases hsd : List.insertionSort priceLE l with
  | nil =>
    rw [hsd] at hperm
    exact absurd hperm.symm.eq_nil h
  | cons b rest =>
    have hble : ∀ d ∈ l, price_val b ≤ price_val d := by
      intro d hd
      have hd' : d ∈ b :: rest := hsd ▸ hperm.mem_iff.mpr hd
      rcases List.mem_cons.mp hd' with rfl | hd''
      · exact le_refl _
      · exact List.rel_of_sorted_cons (hsd ▸ hsorted) d hd''
    refine ⟨b, by rw [sort_deals, hsd]; rfl, ?_, hble, ?_⟩
    · exact hperm.mem_iff.mp (hsd ▸ List.mem_cons_self b rest)
    · rintro ⟨d, hd, hlt⟩
      exact priceCoerce_isSome_of_lt (lt_of_le_of_lt (hble d hd) hlt)

/-- Witness for C4 amended on a malformed offer next to a cheap one. -/
theorem C4_amended_witness :
    ([cBadDeal, cGoodDeal] ≠ []) ∧
    (∃ best, (sort_deals [cBadDeal, cGoodDeal]).head? = some best ∧
      best ∈ [cBadDeal, cGoodDeal] ∧
      (∀ d ∈ [cBadDeal, cGoodDeal], price_val best ≤ price_val d) ∧
      ((∃ d ∈ [cBadDeal, cGoodDeal], price_val d < 999999) → priceCoerce best ≠ none)) :=
  ⟨by simp, C4_amended [cBadDeal, cGoodDeal] (by simp)⟩

/-! ### C1 — write-back values on failure paths -/

/-- C1 counterexample: on a search failure the Criterion Processor does NOT
write back the row's existing last-known-best values (`"100"`, `"Kayak"`): it
writes an empty price and the marker `"gpt_call_failed"` as the source. -/
theorem C1_counterexample :
    cRow1.LastBestSource = "Kayak" ∧
    cRow1.LastBestPricePerPerson = "100" ∧
    handle_row cEffFail 5 cRow1 =
      ({ writes := [⟨2, none, .str "gpt_call_failed", 5⟩] }, .ok "gpt_error") ∧
    Json.str "gpt_call_failed" ≠ .str "Kayak" ∧
    (none : Option Rat) ≠ some 100 :=
  ⟨rfl, rfl, rfl, by simp, by simp⟩

/-- C1 amended: on search failure (resp. empty extraction) `handle_row`
overwrites the last-known-best columns with an empty price and the failure
marker `"gpt_call_failed"` (resp. `"no_deals_found"`) plus a fresh timestamp,
and returns the `gpt_error` (resp. `no_deals_found`) outcome — the existing
values are not preserved. -/
theorem C1_amended (eff : Effects) (ts : Nat) (row : Row)
    (hW : eff.storeWrite = .ok ()) :
    (∀ e, eff.search (buildPrompt row) = .error e →
      handle_row eff ts row =
        ({ writes := [⟨row.row_num, none, .str "gpt_call_failed", ts⟩] }, .ok "gpt_error")) ∧
    (∀ raw ds, eff.search (buildPrompt row) = .ok raw →
      extract_deals_from_gpt raw = .ok ds → pyFalsy ds = true →
      handle_row eff ts row =
        ({ writes := [⟨row.row_num, none, .str "no_deals_found", ts⟩] }, .ok "no_deals_found")) := by
  constructor
  · intro e he
    unfold handle_row
    rw [he, hW]
  · intro raw ds hs hx hf
    unfold handle_row
    simp only [hs, hx, hf, hW, if_pos]

/-- Witness for C1 amended: a failing search with a healthy store. -/
theorem C1_amended_witness :
    cEffFail.storeWrite = .ok () ∧
    cEffFail.search (buildPrompt cRow1) = .error (.err "boom") ∧
    handle_row cEffFail 5 cRow1 =
      ({ writes := [⟨cRow1.row_num, none, .str "gpt_call_failed", 5⟩] }, .ok "gpt_error") :=
  ⟨rfl, rfl, (C1_amended cEffFail 5 cRow1 rfl).1 (.err "boom") rfl⟩

/-! ### C8 — exactly one write-back per terminal outcome -/

/-- C8: whenever `handle_row` returns a status (any of the four terminal
outcomes), exactly one write-back to the row's last-known-best columns was
performed, carrying the freshly generated timestamp. -/
theorem C8_write_back (eff : Effects) (ts : Nat) (row : Row) (tr : Trace) (s : String)
    (h : handle_row eff ts row = (tr, .ok s)) :
    tr.writes.length = 1 ∧ ∀ w ∈ tr.writes, w.ts = ts := by
  unfold handle_row at h
  simp only [] at h
  repeat' split at h
  all_goals injection h with h1 h2
  all_goals first
    | exact Except.noConfusion h2
    | (subst h1; exact ⟨rfl, by simp⟩)

/-- Witness for C8 on the search-failure terminal outcome. -/
theorem C8_write_back_witness :
    handle_row cEffFail 5 cRow1 =
      (({ writes := [⟨2, none, .str "gpt_call_failed", 5⟩] } : Trace), .ok "gpt_error") ∧
    (({ writes := [⟨2, none, .str "gpt_call_failed", 5⟩] } : Trace)).writes.length = 1 ∧
    ∀ w ∈ (({ writes := [⟨2, none, .str "gpt_call_failed", 5⟩] } : Trace)).writes, w.ts = 5 :=
  ⟨rfl, C8_write_back cEffFail 5 cRow1 _ "gpt_error" rfl⟩

/-! ### C6 — malformed best price and the alert threshold -/

/-- C6 counterexample: with a criterion ceiling of `1000000` (≥ the sentinel
`999999`), a best offer whose price is non-numeric DOES trigger the
notification and the alert-log append — the sentinel only prevents false
alerts for ceilings below it. -/
theorem C6_counterexample :
    priceCoerce cBadDeal = none ∧
    handle_row cEffMal 5 cRowHighCeil =
      ({ writes := [⟨2, some 999999, .str "", 5⟩],
         emails := [cBadDeal], alerts := [cBadDeal] }, .ok "alert_sent") ∧
    ({ writes := [⟨2, some 999999, .str "", 5⟩],
       emails := [cBadDeal], alerts := [cBadDeal] } : Trace).alerts ≠ [] :=
  ⟨rfl, rfl, by simp⟩

/-- C6 amended: whenever the best-ranked offer's price fails numeric coercion
and the effective ceiling is strictly below the sentinel `999999` (as with
the default `9999` and every parseable ceiling under the sentinel), the
Criterion Processor dispatches no notification and appends no alert-log row;
if it returns a status at all, that status is `checked_no_alert`. -/
theorem C6_amended (eff : Effects) (ts : Nat) (row : Row) (raw : String)
    (l : List Json) (best : Json)
    (hs : eff.search (buildPrompt row) = .ok raw)
    (hx : extract_deals_from_gpt raw = .ok (.arr l))
    (hne : pyFalsy (.arr l) = false)
    (hb : (sort_deals l).head? = some best)
    (hm : priceCoerce best = none)
    (hc : effective_ceiling row.MaxPricePerPersonUSD < 999999) :
    (handle_row eff ts row).1.alerts = [] ∧ (handle_row eff ts row).1.emails = [] ∧
    ∀ s, (handle_row eff ts row).2 = .ok s → s = "checked_no_alert" := by
  have hbp : price_val best = 999999 := price_val_of_priceCoerce_none hm
  have hthr : ¬ (price_val best ≤ effective_ceiling row.MaxPricePerPersonUSD) := by
    rw [hbp]
    exact not_le_of_lt hc
  rcases hres : handle_row eff ts row with ⟨tr, res⟩
  unfold handle_row at hres
  simp only [] at hres
  rw [hs] at hres
  simp only [hx, hne, Bool.false_eq_true, if_false, pySortDeals, hb] at hres
  cases hg : pyDictGet best "source_site" (.str "") with
  | error e =>
    rw [hg] at hres
    injection hres with h1 h2
    subst h1
    subst h2
    exact ⟨rfl, rfl, fun s hcon => Except.noConfusion hcon⟩
  | ok bs =>
    rw [hg] at hres
    cases hw : eff.storeWrite with
    | error e =>
      rw [hw] at hres
      injection hres with h1 h2
      subst h1
      subst h2
      exact ⟨rfl, rfl, fun s hcon => Except.noConfusion hcon⟩
    | ok u =>
      rw [hw] at hres
      simp only [if_neg hthr] at hres
      injection hres with h1 h2
      subst h1
      subst h2
      refine ⟨rfl, rfl, fun s hcon => ?_⟩
      injection hcon with h3
      exact h3.symm

/-- Witness for C6 amended: malformed price under the default ceiling. -/
theorem C6_amended_witness :
    effective_ceiling cRow1.MaxPricePerPersonUSD < 999999 ∧
    priceCoerce cBadDeal = none ∧
    (handle_row { search := fun _ => .ok cRawMal } 5 cRow1).1.alerts = [] ∧
    (handle_row { search := fun _ => .ok cRawMal } 5 cRow1).1.emails = [] :=
  ⟨by decide, rfl,
    (C6_amended { search := fun _ => .ok cRawMal } 5 cRow1 cRawMal [cBadDeal] cBadDeal
      rfl rfl rfl rfl rfl (by decide)).1,
    (C6_amended { search := fun _ => .ok cRawMal } 5 cRow1 cRawMal [cBadDeal] cBadDeal
      rfl rfl rfl rfl rfl (by decide)).2.1⟩

/-! ### C2 — store-write failures propagate -/

/-- C2 counterexample: with two active criteria and a failing store write on
the first, the run aborts with the store error — no heartbeat is appended,
no outcome tag is produced, and the second criterion is never processed. -/
theorem C2_counterexample :
    read_monitors_filter cRows2 = cRows2 ∧
    cRows2.length = 2 ∧
    monitor_once (fun _ => cEffStoreFail) 7 cRows2 = ([], .error (.err "sheets_down")) :=
  ⟨rfl, rfl, rfl⟩

/-- C2 amended: only the search-collaborator call is locally recovered. A
failure of the Monitors write-back inside `handle_row` propagates out of the
criterion's processing and aborts the whole run: `monitor_once` re-raises the
store error, appends no heartbeat, and later criteria are not processed. -/
theorem C2_amended (eff : Row → Effects) (ts : Nat) (allRows : List Row)
    (r : Row) (rest : List Row) (e1 e2 : PyErr)
    (hm : read_monitors_filter allRows = r :: rest)
    (hs : (eff r).search (buildPrompt r) = .error e1)
    (hw : (eff r).storeWrite = .error e2) :
    handle_row (eff r) ts r = (Trace.nil, .error e2) ∧
    monitor_once eff ts allRows = ([], .error e2) := by
  have hh : handle_row (eff r) ts r = (Trace.nil, .error e2) := by
    unfold handle_row
    rw [hs, hw]
  refine ⟨hh, ?_⟩
  unfold monitor_once
  simp only [hm, List.isEmpty_cons, Bool.false_eq_true, if_false]
  unfold runRows
  rw [hh]

/-- Witness for C2 amended on the concrete two-row scenario. -/
theorem C2_amended_witness :
    read_monitors_filter cRows2 = cRow1 :: [{ cRow1 with row_num := 3 }] ∧
    cEffStoreFail.search (buildPrompt cRow1) = .error (.err "boom") ∧
    cEffStoreFail.storeWrite = .error (.err "sheets_down") ∧
    monitor_once (fun _ => cEffStoreFail) 7 cRows2 = ([], .error (.err "sheets_down")) :=
  ⟨rfl, rfl, rfl,
    (C2_amended (fun _ => cEffStoreFail) 7 cRows2 cRow1 [{ cRow1 with row_num := 3 }]
      (.err "boom") (.err "sheets_down") rfl rfl rfl).2⟩

/-! ### C3 — exactly one heartbeat per run -/

/-- C3: for every run in which each active criterion's processing returns an
outcome tag (success or failure statuses alike), exactly one heartbeat record
is appended, with count equal to the number of active criteria; an empty
active set short-circuits to the distinct `no_active_monitors` /
`nothing_to_scan` heartbeat. -/
theorem C3_heartbeat (eff : Row → Effects) (ts : Nat) (allRows : List Row)
    (h : ∀ r ∈ read_monitors_filter allRows, (handle_row (eff r) ts r).2.isOk = true) :
    ∃ hb : Heartbeat, (monitor_once eff ts allRows).1 = [hb] ∧
      hb.count = (read_monitors_filter allRows).length ∧
      (read_monitors_filter allRows = [] →
        hb.status = "no_active_monitors" ∧ hb.notes = "nothing_to_scan") ∧
      (read_monitors_filter allRows ≠ [] → hb.status = "completed") := by
  cases hm : read_monitors_filter allRows with
  | nil =>
    refine ⟨⟨"no_active_monitors", 0, "nothing_to_scan", ts⟩, ?_, rfl,
      fun _ => ⟨rfl, rfl⟩, fun hne => absurd rfl hne⟩
    unfold monitor_once
    simp only [hm, List.isEmpty_nil, if_true]
  | cons r rs =>
    have h' : ∀ x ∈ r :: rs, (handle_row (eff x) ts x).2.isOk = true := hm ▸ h
    obtain ⟨ss, hss, _⟩ := runRows_ok eff ts (r :: rs) h'
    refine ⟨⟨"completed", (r :: rs).length, String.intercalate "; " ss, ts⟩, ?_, rfl,
      fun hnil => absurd hnil (by simp), fun _ => rfl⟩
    unfold monitor_once
    simp only [hm, List.isEmpty_cons, Bool.false_eq_true, if_false, hss]

/-- Witness for C3 on two active criteria whose searches both fail. -/
theorem C3_heartbeat_witness :
    (∀ r ∈ read_monitors_filter cRows2,
      (handle_row ((fun _ => cEffFail) r) 7 r).2.isOk = true) ∧
    (∃ hb : Heartbeat, (monitor_once (fun _ => cEffFail) 7 cRows2).1 = [hb] ∧
      hb.count = (read_monitors_filter cRows2).length ∧
      (read_monitors_filter cRows2 = [] →
        hb.status = "no_active_monitors" ∧ hb.notes = "nothing_to_scan") ∧
      (read_monitors_filter cRows2 ≠ [] → hb.status = "completed")) :=
  ⟨by decide, C3_heartbeat (fun _ => cEffFail) 7 cRows2 (by decide)⟩

end Monitor
